import Mathlib

/-!
Verification of the FocusFlow pomodoro timer (src/bin/focusflow_app.py and
src/bin/focusflow_tray.py) against its specification.

The two front-ends contain a textually identical timer/phase state machine
(fields `phase`, `running`, `end_time`/`end_ts`); it is embedded once below
(`TimerState`, `start_timer`, `pause_timer`, `reset_timer`, `tick`).  Python
timestamps are floats; they are modelled as rationals, and Python `int()`
(truncation toward zero) is modelled by `pytrunc`.  The config store of each
front-end (`load_config`, `save_config`) is embedded per front-end over a
small JSON-object model (`JVal`, `Obj`) and an abstract file-system state
(`FileState`); the `try`/`except` structure of the Python is mirrored by an
`Except`-returning body plus a catch-all wrapper.
-/

/-- Python `int()` applied to a rational: truncation toward zero. -/
def pytrunc (q : ℚ) : ℤ := if 0 ≤ q then ⌊q⌋ else -⌊-q⌋

/-- The per-phase durations the timer reads (`st.session_state.work_minutes` /
`break_minutes` in the app; `self.cfg['work_minutes']` / `['break_minutes']`
in the tray), as integers (the UI coerces them with `int(...)`). -/
structure Config where
  work_minutes : ℤ
  break_minutes : ℤ
deriving Repr, DecidableEq

/-- The timer state held in `st.session_state` (app lines 39-41) and on
`FocusFlowTray` (lines 32-34): `phase` is a Python string, `running` a
boolean, and `end_time`/`end_ts` (here `deadline`) a float timestamp. -/
structure TimerState where
  phase : String
  running : Bool
  deadline : ℚ
deriving Repr, DecidableEq

/-- Initial session state: `phase='work'`, `running=False`, `end_time=0.0`. -/
def initState : TimerState := { phase := "work", running := false, deadline := 0 }

/-- The duration the timer uses for a phase: `work_minutes` when the phase
equals `"work"`, else `break_minutes` (the conditional on the first line of
`start_timer` / `FocusFlowTray.start`). -/
def phase_minutes (cfg : Config) (p : String) : ℤ :=
  if p = "work" then cfg.work_minutes else cfg.break_minutes

/-- `start_timer` (app lines 86-89) / `FocusFlowTray.start` (lines 74-81):
pick the configured minutes for the current phase, set
`deadline = now + minutes*60`, set `running = True`.  (The tray `start`
additionally fires a notification, a pure side effect.) -/
def start_timer (cfg : Config) (now : ℚ) (s : TimerState) : TimerState :=
  { s with
    deadline := now + (phase_minutes cfg s.phase : ℚ) * 60
    running := true }

/-- `pause_timer` (app lines 91-92) / `FocusFlowTray.pause` (lines 83-84). -/
def pause_timer (s : TimerState) : TimerState := { s with running := false }

/-- `reset_timer` (app lines 94-97) / `FocusFlowTray.reset` (lines 86-89). -/
def reset_timer (_s : TimerState) : TimerState :=
  { phase := "work", running := false, deadline := 0 }

/-- What one tick observes and produces: the displayed remaining seconds,
whether the expiry branch fired (beep / notification), and the new state. -/
structure TickResult where
  remaining : ℤ
  expired : Bool
  state : TimerState
deriving Repr, DecidableEq

/-- `remaining = max(0, int(end_time - now)) if running else 0`
(app line 138; tray lines 96-99). -/
def remaining_of (now : ℚ) (s : TimerState) : ℤ :=
  if s.running then max 0 (pytrunc (s.deadline - now)) else 0

/-- One iteration of the app main loop (lines 136-152) / one call of
`FocusFlowTray.tick` (lines 94-109), state part: compute `remaining`; if
`running and remaining <= 0`, signal expiry, flip the phase
(`'break' if phase == 'work' else 'work'`) and call `start` for the new
phase.  Both sources call `time.time()` again inside `start`; one tick is
modelled at a single instant `now`. -/
def tick (cfg : Config) (now : ℚ) (s : TimerState) : TickResult :=
  if s.running ∧ remaining_of now s ≤ 0 then
    { remaining := remaining_of now s
      expired := true
      state := start_timer cfg now
        { s with phase := if s.phase = "work" then "break" else "work" } }
  else
    { remaining := remaining_of now s, expired := false, state := s }

/-- An operation a front-end can ask of the state machine. -/
inductive Op where
  | op_start (now : ℚ)
  | op_pause
  | op_reset
  | op_tick (now : ℚ)

/-- Apply one operation to the session state. -/
def apply_op (cfg : Config) (s : TimerState) : Op → TimerState
  | .op_start now => start_timer cfg now s
  | .op_pause => pause_timer s
  | .op_reset => reset_timer s
  | .op_tick now => (tick cfg now s).state

/-- Run a sequence of operations from a state. -/
def run_ops (cfg : Config) : List Op → TimerState → TimerState
  | [], s => s
  | o :: rest, s => run_ops cfg rest (apply_op cfg s o)

/-! ## Config store model -/

/-- A JSON scalar value as stored in `~/.focusflow/config.json`. -/
inductive JVal where
  | jint (n : ℤ)
  | jstr (s : String)
  | jbool (b : Bool)
deriving Repr, DecidableEq

/-- A parsed JSON object: key/value pairs (keys unique, as in a Python dict). -/
abbrev Obj := List (String × JVal)

/-- Python `d.get(k)` / `k in d` lookup. -/
def olookup (o : Obj) (k : String) : Option JVal := List.lookup k o

/-- The `DEFAULTS` dict of focusflow_app.py (lines 10-14); the tray writes the
same literal dict (line 24). -/
def DEFAULTS : Obj :=
  [("work_minutes", .jint 25), ("break_minutes", .jint 5), ("theme", .jstr "dark")]

/-- Abstract state of the config file on disk. -/
inductive FileState where
  | missing
  | unreadable
  | malformed
  | content (obj : Obj)
deriving Repr, DecidableEq

/-- Whether a key is one of the three settings keys. -/
def tracked_key (k : String) : Bool :=
  k = "work_minutes" ∨ k = "break_minutes" ∨ k = "theme"

/-- The Python dict merge `{**DEFAULTS, **obj}` (app line 22): the three
default keys first, each overridden by `obj` when present, then the remaining
(unknown) keys of `obj`. -/
def merge_defaults (o : Obj) : Obj :=
  [("work_minutes", (olookup o "work_minutes").getD (.jint 25)),
   ("break_minutes", (olookup o "break_minutes").getD (.jint 5)),
   ("theme", (olookup o "theme").getD (.jstr "dark"))] ++
  o.filter (fun p => ¬ tracked_key p.1)

/-- The settings triple a front-end reads out of a loaded config dict with
`cfg.get(k, DEFAULTS[k])` (app lines 36-38): work minutes, break minutes,
theme. -/
def settings_of (cfg : Obj) : JVal × JVal × JVal :=
  ((olookup cfg "work_minutes").getD (.jint 25),
   (olookup cfg "break_minutes").getD (.jint 5),
   (olookup cfg "theme").getD (.jstr "dark"))

namespace FocusflowApp

/-- Body of the `try:` in `load_config` (app lines 17-22): create the file
with `DEFAULTS` when missing and return `DEFAULTS.copy()`; otherwise read,
parse (raising on unreadable or malformed contents) and return
`{**DEFAULTS, **parsed}`.  Returns the dict together with the resulting file
state. -/
def load_config_body : FileState → Except Unit (Obj × FileState)
  | .missing => .ok (DEFAULTS, .content DEFAULTS)
  | .unreadable => .error ()
  | .malformed => .error ()
  | .content o => .ok (merge_defaults o, .content o)

/-- `load_config` (app lines 16-24): the body under a catch-all
`except Exception: return DEFAULTS.copy()` — total, never raises, and a
failure leaves the file untouched. -/
def load_config (fs : FileState) : Obj × FileState :=
  match load_config_body fs with
  | .ok r => r
  | .error _ => (DEFAULTS, fs)

/-- `save_config` (app lines 26-30): best-effort whole-file write of the
dict (failures swallowed; the success path is modelled). -/
def save_config (cfg : Obj) (_fs : FileState) : FileState := .content cfg

end FocusflowApp

namespace FocusflowTray

/-- Body of the `try:` in the tray `load_config` (tray lines 21-25): create
the file with the defaults dict when missing, then return
`json.loads(CONFIG_PATH.read_text())` — the parsed file as-is, with NO merge
against the defaults. -/
def load_config_body : FileState → Except Unit (Obj × FileState)
  | .missing => .ok (DEFAULTS, .content DEFAULTS)
  | .unreadable => .error ()
  | .malformed => .error ()
  | .content o => .ok (o, .content o)

/-- Tray `load_config` (tray lines 20-27): body under a catch-all `except`
returning the defaults dict. -/
def load_config (fs : FileState) : Obj × FileState :=
  match load_config_body fs with
  | .ok r => r
  | .error _ => (DEFAULTS, fs)

/-- Python `self.cfg[k]` subscription on the loaded dict: `none` models a
`KeyError`. -/
def cfg_index (cfg : Obj) (k : String) : Option JVal := olookup cfg k

end FocusflowTray

/-! ## General lemmas -/

/-- Python `int()` of an exact integer is that integer. -/
theorem pytrunc_intCast (n : ℤ) : pytrunc (n : ℚ) = n := by
  unfold pytrunc
  rcases le_or_lt 0 n with h | h
  · rw [if_pos (by exact_mod_cast h), Int.floor_intCast]
  · rw [if_neg (by exact_mod_cast h.not_le), ← Int.cast_neg, Int.floor_intCast, neg_neg]

/-- Python `int()` truncates any value strictly between 0 and 1 to 0. -/
theorem pytrunc_eq_zero_of_lt_one (q : ℚ) (h0 : 0 < q) (h1 : q < 1) : pytrunc q = 0 := by
  unfold pytrunc
  rw [if_pos h0.le]
  exact Int.floor_eq_zero_iff.mpr ⟨h0.le, h1⟩

/-- The remaining seconds a tick reports equal `remaining_of`, whichever
branch the tick takes. -/
theorem tick_remaining (cfg : Config) (now : ℚ) (s : TimerState) :
    (tick cfg now s).remaining = remaining_of now s := by
  unfold tick
  split <;> rfl

/-- Looking up `work_minutes` in the merged dict falls back to 25. -/
theorem olookup_merge_work (o : Obj) :
    olookup (merge_defaults o) "work_minutes" = (olookup o "work_minutes").getD (.jint 25) := by
  simp [merge_defaults, olookup, List.lookup]

/-- Looking up `break_minutes` in the merged dict falls back to 5. -/
theorem olookup_merge_break (o : Obj) :
    olookup (merge_defaults o) "break_minutes" = (olookup o "break_minutes").getD (.jint 5) := by
  simp [merge_defaults, olookup, List.lookup]

/-- Looking up `theme` in the merged dict falls back to `"dark"`. -/
theorem olookup_merge_theme (o : Obj) :
    olookup (merge_defaults o) "theme" = (olookup o "theme").getD (.jstr "dark") := by
  simp [merge_defaults, olookup, List.lookup]

/-- Merging the defaults dict into itself changes nothing. -/
theorem merge_defaults_defaults : merge_defaults DEFAULTS = DEFAULTS := rfl

/-- The unknown (untracked) keys of a merged dict are those of the original. -/
theorem filter_merge_defaults (o : Obj) :
    (merge_defaults o).filter (fun p => ¬ tracked_key p.1) =
      o.filter (fun p => ¬ tracked_key p.1) := by
  rw [merge_defaults, List.filter_append]
  simp [tracked_key, List.filter_filter]

/-- The Python dict merge with `DEFAULTS` is idempotent. -/
theorem merge_defaults_idem (o : Obj) :
    merge_defaults (merge_defaults o) = merge_defaults o := by
  conv_lhs => rw [merge_defaults]
  rw [olookup_merge_work, olookup_merge_break, olookup_merge_theme, filter_merge_defaults,
    merge_defaults]
  rfl

/-- Every single operation keeps the phase inside the two-letter alphabet. -/
theorem apply_op_phase (cfg : Config) (o : Op) (s : TimerState)
    (h : s.phase = "work" ∨ s.phase = "break") :
    (apply_op cfg s o).phase = "work" ∨ (apply_op cfg s o).phase = "break" := by
  cases o with
  | op_start now => exact h
  | op_pause => exact h
  | op_reset => exact Or.inl rfl
  | op_tick now =>
      show (tick cfg now s).state.phase = "work" ∨ (tick cfg now s).state.phase = "break"
      unfold tick
      split
      · show (if s.phase = "work" then "break" else "work") = "work" ∨
            (if s.phase = "work" then "break" else "work") = "break"
        split
        · exact Or.inr rfl
        · exact Or.inl rfl
      · exact h

/-- Any operation sequence keeps the phase inside the two-letter alphabet. -/
theorem run_ops_phase (cfg : Config) (ops : List Op) (s : TimerState)
    (h : s.phase = "work" ∨ s.phase = "break") :
    (run_ops cfg ops s).phase = "work" ∨ (run_ops cfg ops s).phase = "break" := by
  induction ops generalizing s with
  | nil => exact h
  | cons o rest ih => exact ih (apply_op cfg s o) (apply_op_phase cfg o s h)

/-! ## The claims -/

/-- C1: Auto-chaining on expiry.  For every running state whose computed
remaining is at most 0, the tick signals expiry, flips the phase (work to
break, break to work), restarts with `deadline = now + 60 * (the new phase's
configured minutes)` and leaves the machine running; in particular with
`work_minutes = 1`, after `start` at time `t` the call `tick (t + 61)`
reports expiry with remaining 0, sets the phase to break, keeps running
true, and sets `deadline = t + 61 + break_minutes * 60`. -/
theorem c1_auto_chaining_on_expiry (cfg : Config) (s : TimerState) (now : ℚ)
    (hr : s.running = true) (he : remaining_of now s ≤ 0) :
    (tick cfg now s).expired = true ∧
    (tick cfg now s).state.running = true ∧
    (tick cfg now s).state.phase = (if s.phase = "work" then "break" else "work") ∧
    (tick cfg now s).state.deadline =
      now + (phase_minutes cfg (tick cfg now s).state.phase : ℚ) * 60 ∧
    (∀ (t : ℚ) (b : ℤ),
      tick ⟨1, b⟩ (t + 61) (start_timer ⟨1, b⟩ t initState) =
        ⟨0, true, ⟨"break", true, (t + 61) + (b : ℚ) * 60⟩⟩) := by
  have htick : tick cfg now s =
      { remaining := remaining_of now s
        expired := true
        state := start_timer cfg now
          { s with phase := if s.phase = "work" then "break" else "work" } } := by
    unfold tick
    rw [if_pos ⟨hr, he⟩]
  refine ⟨by rw [htick], by rw [htick]; rfl, by rw [htick]; rfl, ?_, ?_⟩
  · rw [htick]
    rfl
  · intro t b
    have hs : start_timer ⟨1, b⟩ t initState = ⟨"work", true, t + 60⟩ := by
      simp [start_timer, initState, phase_minutes]
    have hrem : remaining_of (t + 61) ⟨"work", true, t + 60⟩ = 0 := by
      rw [remaining_of, if_pos rfl]
      have h1 : (t + 60 : ℚ) - (t + 61) = ((-1 : ℤ) : ℚ) := by push_cast; ring
      rw [h1, pytrunc_intCast]
      rfl
    rw [hs]
    unfold tick
    rw [if_pos ⟨rfl, by rw [hrem]⟩, hrem]
    simp [start_timer, phase_minutes]

/-- Witness for C1 at `work_minutes = 1`, `break_minutes = 5`, a work phase
started at time 0 and ticked at time 61. -/
theorem c1_auto_chaining_witness :
    (⟨"work", true, 0⟩ : TimerState).running = true ∧
    remaining_of 61 ⟨"work", true, 0⟩ ≤ 0 ∧
    ((tick ⟨1, 5⟩ 61 ⟨"work", true, 0⟩).expired = true ∧
     (tick ⟨1, 5⟩ 61 ⟨"work", true, 0⟩).state.running = true ∧
     (tick ⟨1, 5⟩ 61 ⟨"work", true, 0⟩).state.phase =
       (if (⟨"work", true, 0⟩ : TimerState).phase = "work" then "break" else "work") ∧
     (tick ⟨1, 5⟩ 61 ⟨"work", true, 0⟩).state.deadline =
       61 + (phase_minutes ⟨1, 5⟩ (tick ⟨1, 5⟩ 61 ⟨"work", true, 0⟩).state.phase : ℚ) * 60 ∧
     (∀ (t : ℚ) (b : ℤ),
       tick ⟨1, b⟩ (t + 61) (start_timer ⟨1, b⟩ t initState) =
         ⟨0, true, ⟨"break", true, (t + 61) + (b : ℚ) * 60⟩⟩)) :=
  ⟨rfl, by norm_num [remaining_of, pytrunc],
   c1_auto_chaining_on_expiry ⟨1, 5⟩ ⟨"work", true, 0⟩ 61 rfl
     (by norm_num [remaining_of, pytrunc])⟩

/-- C2: `start` postcondition.  From every state, `start_timer` sets
`deadline = now + 60 * (the current phase's configured minutes)` and
`running = true`, leaving the phase unchanged; and for every positive `w`,
after `reset_timer` then `start_timer` with `work_minutes = w`, a tick at
the same instant reports remaining `w * 60`. -/
theorem c2_start_postcondition (cfg : Config) (s : TimerState) (now : ℚ)
    (w b : ℤ) (hw : 0 < w) :
    (start_timer cfg now s).deadline = now + (phase_minutes cfg s.phase : ℚ) * 60 ∧
    (start_timer cfg now s).running = true ∧
    (start_timer cfg now s).phase = s.phase ∧
    (tick ⟨w, b⟩ now (start_timer ⟨w, b⟩ now (reset_timer s))).remaining = w * 60 := by
  refine ⟨rfl, rfl, rfl, ?_⟩
  · rw [tick_remaining]
    have hs : start_timer ⟨w, b⟩ now (reset_timer s) = ⟨"work", true, now + (w : ℚ) * 60⟩ := by
      simp [start_timer, reset_timer, phase_minutes]
    rw [hs]
    have harg : (now + (w : ℚ) * 60) - now = ((w * 60 : ℤ) : ℚ) := by push_cast; ring
    rw [remaining_of]
    simp only [if_pos rfl]
    rw [harg, pytrunc_intCast]
    exact max_eq_right (by omega)

/-- Witness for C2 at `work_minutes = 25`, `break_minutes = 5`, the initial
state and time 7. -/
theorem c2_start_witness :
    (0 : ℤ) < 25 ∧
    ((start_timer ⟨25, 5⟩ 7 initState).deadline =
      7 + (phase_minutes ⟨25, 5⟩ initState.phase : ℚ) * 60 ∧
    (start_timer ⟨25, 5⟩ 7 initState).running = true ∧
    (start_timer ⟨25, 5⟩ 7 initState).phase = initState.phase ∧
    (tick ⟨25, 5⟩ 7 (start_timer ⟨25, 5⟩ 7 (reset_timer initState))).remaining = 25 * 60) :=
  ⟨by norm_num, c2_start_postcondition ⟨25, 5⟩ initState 7 25 5 (by norm_num)⟩

/-- C3 (amended): an idle tick is inert — with `running = false` the tick
reports remaining 0 and returns the state unchanged, for every phase,
deadline and instant; with `running = true` it reports
`max 0 (int (deadline - now))`, the Python `int()` truncation of the
difference (not the exact `max 0 (deadline - now)` of the original claim,
which fails on fractional differences). -/
theorem c3_idle_tick_inert (cfg : Config) (p : String) (d now : ℚ) :
    tick cfg now ⟨p, false, d⟩ = ⟨0, false, ⟨p, false, d⟩⟩ ∧
    (tick cfg now ⟨p, true, d⟩).remaining = max 0 (pytrunc (d - now)) := by
  constructor
  · simp [tick, remaining_of]
  · rw [tick_remaining]
    simp [remaining_of]

/-- C3 counterexample: a running state half a second from its deadline is
reported as remaining 0, not the exact `max 0 (deadline - now) = 1/2` the
claim states. -/
theorem c3_running_remaining_cex :
    ¬ (((tick ⟨25, 5⟩ 0 ⟨"work", true, 1/2⟩).remaining : ℚ) = max 0 ((1 : ℚ)/2 - 0)) := by
  rw [tick_remaining]
  norm_num [remaining_of, pytrunc]

/-- C4 (amended): missing-key fallback holds for the web app front-end —
each of the three settings read from its loaded dict equals the value stored
in the file when the key is present and the default (25, 5, dark) when it is
absent, and keys other than the three cannot affect these lookups; the tray
front-end's load, however, returns the parsed file object as-is, with no
per-key fallback. -/
theorem c4_missing_key_fallback (o : Obj) :
    olookup (FocusflowApp.load_config (.content o)).1 "work_minutes" =
      (olookup o "work_minutes").getD (.jint 25) ∧
    olookup (FocusflowApp.load_config (.content o)).1 "break_minutes" =
      (olookup o "break_minutes").getD (.jint 5) ∧
    olookup (FocusflowApp.load_config (.content o)).1 "theme" =
      (olookup o "theme").getD (.jstr "dark") ∧
    FocusflowTray.load_config (.content o) = (o, .content o) :=
  ⟨olookup_merge_work o, olookup_merge_break o, olookup_merge_theme o, rfl⟩

/-- C4 counterexample: for the stored file containing only a theme key, the
tray front-end's loaded config does not give `work_minutes` its default 25 —
the key is simply absent (a later subscription raises KeyError). -/
theorem c4_tray_missing_key_cex :
    FocusflowTray.cfg_index
      (FocusflowTray.load_config (.content [("theme", .jstr "light")])).1 "work_minutes" ≠
    some (.jint 25) := by
  decide

/-- C5: `load_config` never raises and falls back to the defaults.  Its body
is modelled as an `Except` the catch-all wraps into a total function; on a
missing file it creates the file with the defaults and returns them, on an
unreadable or malformed file it returns the defaults and leaves the file
untouched (no overwrite with corrected data), and on a parsed file it
returns without writing — in both front-ends. -/
theorem c5_load_never_raises (o : Obj) :
    FocusflowApp.load_config .missing = (DEFAULTS, .content DEFAULTS) ∧
    FocusflowApp.load_config .unreadable = (DEFAULTS, .unreadable) ∧
    FocusflowApp.load_config .malformed = (DEFAULTS, .malformed) ∧
    FocusflowApp.load_config (.content o) = (merge_defaults o, .content o) ∧
    FocusflowTray.load_config .missing = (DEFAULTS, .content DEFAULTS) ∧
    FocusflowTray.load_config .unreadable = (DEFAULTS, .unreadable) ∧
    FocusflowTray.load_config .malformed = (DEFAULTS, .malformed) ∧
    FocusflowTray.load_config (.content o) = (o, .content o) :=
  ⟨rfl, rfl, rfl, rfl, rfl, rfl, rfl, rfl⟩

/-- C6: `reset_timer` is unconditional — from every state it yields the
canonical initial state: phase work, not running, deadline cleared to 0. -/
theorem c6_reset_unconditional (s : TimerState) :
    reset_timer s = ⟨"work", false, 0⟩ := rfl

/-- C7: `pause_timer` only clears `running` (phase and deadline kept), it is
idempotent, and on an already idle state it is a no-op. -/
theorem c7_pause_idempotent (s : TimerState) (p : String) (d : ℚ) :
    pause_timer s = ⟨s.phase, false, s.deadline⟩ ∧
    pause_timer (pause_timer s) = pause_timer s ∧
    pause_timer ⟨p, false, d⟩ = ⟨p, false, d⟩ :=
  ⟨rfl, rfl, rfl⟩

/-- C8: the save/load round-trip is stable — for every file-system state,
loading after saving what was loaded yields the same settings triple as the
original load (in fact the same dict). -/
theorem c8_save_load_roundtrip (fs : FileState) :
    settings_of (FocusflowApp.load_config
      (FocusflowApp.save_config (FocusflowApp.load_config fs).1
        (FocusflowApp.load_config fs).2)).1 =
    settings_of (FocusflowApp.load_config fs).1 := by
  cases fs with
  | missing => rfl
  | unreadable => rfl
  | malformed => rfl
  | content o =>
      show settings_of (merge_defaults (merge_defaults o)) = settings_of (merge_defaults o)
      rw [merge_defaults_idem]

/-- C9: state-space invariant — starting from the initial state, every
sequence of start, pause, reset and tick operations keeps the phase in the
two-element set work/break (running is a boolean by construction), so every
reachable state lies in the four-element combined space. -/
theorem c9_state_space_invariant (cfg : Config) (ops : List Op) :
    (run_ops cfg ops initState).phase = "work" ∨
    (run_ops cfg ops initState).phase = "break" :=
  run_ops_phase cfg ops initState (Or.inl rfl)

/-- C10: early expiry from integer truncation — for every running state and
instant with `0 < deadline - now < 1`, the computed remaining is 0 and the
expiry branch fires, so the phase can expire strictly before the absolute
deadline is reached. -/
theorem c10_early_expiry_truncation (cfg : Config) (s : TimerState) (now : ℚ)
    (hr : s.running = true) (h0 : 0 < s.deadline - now) (h1 : s.deadline - now < 1) :
    (tick cfg now s).remaining = 0 ∧ (tick cfg now s).expired = true := by
  have hrem : remaining_of now s = 0 := by
    rw [remaining_of, hr, if_pos rfl, pytrunc_eq_zero_of_lt_one _ h0 h1]
    rfl
  constructor
  · rw [tick_remaining, hrem]
  · unfold tick
    rw [if_pos ⟨hr, by rw [hrem]⟩]

/-- Witness for C10 at a running work state with deadline 1/2 ticked at 0. -/
theorem c10_early_expiry_witness :
    (⟨"work", true, 1/2⟩ : TimerState).running = true ∧
    0 < (⟨"work", true, 1/2⟩ : TimerState).deadline - 0 ∧
    (⟨"work", true, 1/2⟩ : TimerState).deadline - 0 < 1 ∧
    ((tick ⟨25, 5⟩ 0 ⟨"work", true, 1/2⟩).remaining = 0 ∧
     (tick ⟨25, 5⟩ 0 ⟨"work", true, 1/2⟩).expired = true) :=
  ⟨rfl, by norm_num, by norm_num,
   c10_early_expiry_truncation ⟨25, 5⟩ ⟨"work", true, 1/2⟩ 0 rfl (by norm_num) (by norm_num)⟩
